import Mathlib

/-!
Verification of the `test_kind` classification-and-policy engine.

The Rust sources embedded here:
  * `src/crate/src/attribute_kind.rs` - attribute parser (`AttributeKind.from_str`)
    and policy engine (`AttributeKind.what_to_do`).
  * `src/src/attribute_kind.rs` - an older attribute parser
    (`AttributeKind.from_lit_str`).
  * `src/crate/src/unit_age.rs` - aging evaluator (`UnitAge.unit_aged_out`,
    `UnitAge.from_env`).
  * `src/crate/src/config.rs` - configuration point queries.

Modelling conventions:
  * Rust `&str` / `String` values are Lean `String`s; character-level work uses
    `List Char` (`String.data`).
  * `chrono::NaiveDate` is a `(year, month, day)` record; date ordering and
    day arithmetic go through `Date.toDays` (the standard civil-from-days
    rata-die day count, day 0 = 1970-01-01), which agrees with chrono for
    calendar-valid dates.
  * The process-wide configuration (lazily read from environment variables in
    `config.rs`) is passed explicitly as an immutable `Config` record, and the
    ambient clock (`Utc::now` / `Local::now`) as an explicit `now : Date`.
  * Fallible Rust paths (`syn::Result`) become `Except ParseError α`; each
    `ParseError` constructor corresponds to one `Error::new_spanned` site.
  * Rust `str::trim` trims Unicode whitespace; we model the ASCII whitespace
    characters, which is exact for all ASCII attribute text.
-/

/-! ## Characters and strings -/

/-- ASCII whitespace as recognised by Rust `char::is_whitespace`
(restricted to the ASCII range). -/
def isWS (c : Char) : Bool :=
  c = ' ' || c = '\t' || c = '\n' || c = '\x0b' || c = '\x0c' || c = '\r'

/-- Model of Rust `str::trim_start`. -/
def trimLeft (l : List Char) : List Char := l.dropWhile isWS

/-- Model of Rust `str::trim_end`. -/
def trimRight (l : List Char) : List Char := (l.reverse.dropWhile isWS).reverse

/-- Model of Rust `str::trim`. -/
def trimWS (l : List Char) : List Char := trimRight (trimLeft l)

/-- Split a character list at the first occurrence of `c`
(`none` when `c` does not occur). -/
def breakOn (c : Char) : List Char → Option (List Char × List Char)
  | [] => none
  | x :: xs =>
    if x = c then some ([], xs)
    else (breakOn c xs).map (fun p => (x :: p.1, p.2))

/-- Model of Rust `str::splitn(2, c)`: one or two pieces. -/
def splitnTwo (c : Char) (l : List Char) : List (List Char) :=
  match breakOn c l with
  | none => [l]
  | some (a, b) => [a, b]

/-- Model of Rust `str::split(c)`: splits at every occurrence;
the empty string yields one empty piece, like Rust. -/
def splitOnChar (c : Char) : List Char → List (List Char)
  | [] => [[]]
  | x :: xs =>
    if x = c then [] :: splitOnChar c xs
    else
      match splitOnChar c xs with
      | [] => [[x]]
      | h :: t => (x :: h) :: t

/-- Model of Rust `str::strip_prefix` (exact character-by-character match). -/
def stripPfx : List Char → List Char → Option (List Char)
  | [], s => some s
  | _ :: _, [] => none
  | p :: ps, s :: ss => if s = p then stripPfx ps ss else none

/-- ASCII lowercasing of one character (Rust `u8::to_ascii_lowercase`). -/
def asciiLower (c : Char) : Char :=
  if 'A' ≤ c ∧ c ≤ 'Z' then Char.ofNat (c.toNat + 32) else c

/-- Model of Rust `str::eq_ignore_ascii_case`. -/
def eqIgnoreAsciiCase (a b : String) : Bool :=
  a.data.map asciiLower = b.data.map asciiLower

/-- Numeric value of a list of ASCII digits (most significant first). -/
def natOfDigits (l : List Char) : Nat :=
  l.foldl (fun a c => 10 * a + (c.toNat - 48)) 0

/-! ## Dates

`chrono::NaiveDate` is modelled as a year-month-day record.  Construction via
`NaiveDate::from_ymd_opt` enforces `Date.ValidB`; ordering and day arithmetic
are expressed through `Date.toDays`. -/

/-- A proleptic Gregorian calendar date. -/
structure Date where
  y : Int
  m : Nat
  d : Nat
deriving DecidableEq

/-- Gregorian leap-year test. -/
def isLeap (y : Int) : Bool :=
  (Int.emod y 4 = 0 && Int.emod y 100 ≠ 0) || Int.emod y 400 = 0

/-- Number of days in a month. -/
def daysInMonth (y : Int) (m : Nat) : Nat :=
  if m = 2 then (if isLeap y then 29 else 28)
  else if m = 4 ∨ m = 6 ∨ m = 9 ∨ m = 11 then 30
  else 31

/-- Calendar validity as enforced by `NaiveDate::from_ymd_opt`, including
chrono's representable year range `MIN_YEAR ..= MAX_YEAR`
(`i32::MIN >> 13` to `i32::MAX >> 13`). -/
def Date.ValidB (dt : Date) : Bool :=
  (-262144 ≤ dt.y && dt.y ≤ 262143) &&
  (1 ≤ dt.m && dt.m ≤ 12) &&
  (1 ≤ dt.d && dt.d ≤ daysInMonth dt.y dt.m)

/-- `Date.ValidB` as a proposition. -/
def Date.Valid (dt : Date) : Prop := dt.ValidB = true

instance (dt : Date) : Decidable dt.Valid := by
  unfold Date.Valid; infer_instance

/-- Civil-from-days day count (day 0 = 1970-01-01), the standard
`days_from_civil` algorithm; agrees with chrono's internal day numbering on
valid dates, so date comparisons and `Duration::days` arithmetic on
`NaiveDate` are faithfully mirrored by integer arithmetic on `toDays`. -/
def Date.toDays (dt : Date) : Int :=
  let yy : Int := if dt.m ≤ 2 then dt.y - 1 else dt.y
  let era : Int := Int.ediv yy 400
  let yoe : Int := Int.emod yy 400
  let mp : Nat := (dt.m + 9) % 12
  let doy : Int := ((153 * mp + 2) / 5 : Nat) + (dt.d : Int) - 1
  let doe : Int := yoe * 365 + Int.ediv yoe 4 - Int.ediv yoe 100 + doy
  era * 146097 + doe - 719468

/-- `NaiveDate::from_ymd_opt(2023, 10, 10)`, the minimum `updated` date. -/
def minDate : Date := ⟨2023, 10, 10⟩

/-! ## chrono `NaiveDate::parse_from_str`

We model the two format strings the sources use, following chrono 0.4's
`format::parse` + `format::scan::number`:
  * a `Numeric` item first trims leading whitespace; an unsigned item then
    takes at most `width` digits (at least one); a signed year accepts an
    optional sign, in which case the digit count is unbounded;
  * a whitespace run in the format (`Item::Space`) matches zero or more
    whitespace characters of the input;
  * a literal must match exactly;
  * trailing unconsumed input is an error, and the resolved triple must be a
    valid `NaiveDate` (`from_ymd_opt`). -/

/-- chrono `scan::number(s, 1, max)`: take at most `max` leading ASCII digits
(at least 1) and their value; values beyond `i64::MAX` are an overflow
error. -/
def scanNumber (s : List Char) (maxW : Nat) : Option (Nat × List Char) :=
  let window := s.take maxW
  let digits := window.takeWhile Char.isDigit
  if digits.length < 1 then none
  else
    let v := natOfDigits digits
    if v ≤ 9223372036854775807 then some (v, s.drop digits.length) else none

/-- chrono parsing of a `%Y` item (signed, width 4 without a sign). -/
def parseYearNum (s : List Char) : Option (Int × List Char) :=
  let s := trimLeft s
  match s with
  | '-' :: rest => (scanNumber rest rest.length).map (fun p => (-(p.1 : Int), p.2))
  | '+' :: rest => (scanNumber rest rest.length).map (fun p => ((p.1 : Int), p.2))
  | _ => (scanNumber s 4).map (fun p => ((p.1 : Int), p.2))

/-- chrono parsing of a `%m` / `%d` item (unsigned, width 2). -/
def parseNum2 (s : List Char) : Option (Nat × List Char) :=
  scanNumber (trimLeft s) 2

/-- A literal `-` item. -/
def expectDash (s : List Char) : Option (List Char) :=
  match s with
  | '-' :: rest => some rest
  | _ => none

/-- Resolution step shared by both formats: `Parsed::set_year` bounds the
year to `i32`, then `to_naive_date` requires a calendar-valid date in
chrono's year range. -/
def resolveYmd (y : Int) (m d : Nat) : Option Date :=
  if -2147483648 ≤ y ∧ y ≤ 2147483647 then
    let dt : Date := ⟨y, m, d⟩
    if dt.ValidB then some dt else none
  else none

/-- `NaiveDate::parse_from_str(s, "%Y-%m-%d")` (the `src/src` parser's
format). -/
def parseDatePlain (s : List Char) : Option Date := do
  let (y, s) ← parseYearNum s
  let s ← expectDash s
  let (m, s) ← parseNum2 s
  let s ← expectDash s
  let (d, s) ← parseNum2 s
  if s = [] then resolveYmd y m d else none

/-- `NaiveDate::parse_from_str(s, "%Y - %m - %d")` (the `src/crate` parser's
format): the spaces are `Item::Space` and match zero or more whitespace
characters. -/
def parseDateSpaced (s : List Char) : Option Date := do
  let (y, s) ← parseYearNum s
  let s ← expectDash (trimLeft s)
  let (m, s) ← parseNum2 (trimLeft s)
  let s ← expectDash (trimLeft s)
  let (d, s) ← parseNum2 (trimLeft s)
  if s = [] then resolveYmd y m d else none

/-! ## Error taxonomy

One constructor per `Error::new_spanned` site in the two parsers (the spec
section 7 taxonomy).  The dynamic payloads that matter to the claims are
kept; purely diagnostic message text is not. -/

/-- Parse-time validation failures of the attribute parsers. -/
inductive ParseError where
  /-- "Invalid attribute format. Must be one of: ..." (catch-all shape). -/
  | invalidFormat
  /-- "Invalid date format: ..." from `NaiveDate::parse_from_str`. -/
  | invalidDateFormat
  /-- "`updated=...` must not be before 10 October 2023." -/
  | dateTooEarly
  /-- "`updated=...` must not be more than 2 days after the current date." -/
  | dateTooLate
  /-- "Invalid options for test kind 'unit'" (missing `updated` option). -/
  | invalidOptionsUnit
  /-- "Undefined Test Kind: ..." / "Invalid Test Kind ..." -/
  | undefinedKind
  /-- "Invalid list of resources for for test kind ..." (missing
  `resources` option). -/
  | invalidResourceList
  /-- "At least one resource must be specified" -/
  | emptyResourceList
  /-- "Unknown Resources: ..." (only in the `src/crate` parser). -/
  | unknownResources (rs : List String)
  /-- "Resources may not be specified multiple times" -/
  | duplicateResource
deriving DecidableEq

/-- `enum AttributeKind` from `attribute_kind.rs`. -/
inductive AttributeKind where
  /-- Unit tests, with the date they were last updated. -/
  | Unit (updated : Date)
  /-- Stand-alone integration tests. -/
  | Integration
  /-- Any other test kind, with the resources it requires. -/
  | Other (kind : String) (resources : List String)
deriving DecidableEq

/-- `enum TestSettings` from `attribute_kind.rs`. -/
inductive TestSettings where
  /-- Run the test. -/
  | Run
  /-- Silently ignore the test. -/
  | Ignore
  /-- Skip the test, with a reason. -/
  | Skip (reason : String)
deriving DecidableEq

/-- `enum UnitAgeResult` from `unit_age.rs`. -/
inductive UnitAgeResult where
  /-- Unit test is young enough to run. -/
  | Young
  /-- Unit test is aged out, but skips with a message. -/
  | Aged (reason : String)
  /-- Unit test is too old; ignored silently. -/
  | Old
deriving DecidableEq

instance exceptDecEq {ε α : Type} [DecidableEq ε] [DecidableEq α] :
    DecidableEq (Except ε α) := fun a b =>
  match a, b with
  | .ok x, .ok y =>
    if h : x = y then .isTrue (by rw [h]) else .isFalse (fun hh => by cases hh; exact h rfl)
  | .error x, .error y =>
    if h : x = y then .isTrue (by rw [h]) else .isFalse (fun hh => by cases hh; exact h rfl)
  | .ok _, .error _ => .isFalse (fun hh => by cases hh)
  | .error _, .ok _ => .isFalse (fun hh => by cases hh)

/-! ## Configuration (`config.rs`)

`config.rs` reads each `TEST_KIND_*` environment variable once (behind
`lazy_static`) into lists of strings.  We take the resolved snapshot as an
explicit immutable record, as the spec prescribes for the core. -/

/-- `struct UnitAge` from `unit_age.rs` (`u32` fields). -/
structure UnitAge where
  /-- Number of days a unit test runs for in CI (`TEST_KIND_UNIT_AGE`). -/
  max : Nat
  /-- Number of days a unit test is skipped (`TEST_KIND_UNIT_SKIP`). -/
  skip : Nat
deriving DecidableEq

/-- The resolved process-wide configuration snapshot. -/
structure Config where
  /-- `TEST_KIND_EXCLUDE`. -/
  exclude : List String
  /-- `TEST_KIND_DEFINED`. -/
  defined : List String
  /-- `TEST_KIND_KNOWN_RESOURCES`. -/
  known : List String
  /-- `TEST_KIND_RESOURCES` (available resources). -/
  available : List String
  /-- `TEST_KIND_UNIT_AGE` / `TEST_KIND_UNIT_SKIP`. -/
  unitAge : UnitAge
deriving DecidableEq

/-- `config.rs::is_test_kind_excluded` (case-insensitive membership). -/
def is_test_kind_excluded (cfg : Config) (kind : String) : Bool :=
  cfg.exclude.any (fun s => eqIgnoreAsciiCase s kind)

/-- `config.rs::is_test_kind_defined`: empty registry means everything is
defined, otherwise case-insensitive membership. -/
def is_test_kind_defined (cfg : Config) (kind : String) : Bool :=
  if cfg.defined.isEmpty then true
  else cfg.defined.any (fun s => eqIgnoreAsciiCase s kind)

/-- `config.rs::is_test_resource_defined`: empty registry means every
resource is known, otherwise case-insensitive membership. -/
def is_test_resource_defined (cfg : Config) (resource : String) : Bool :=
  if cfg.known.isEmpty then true
  else cfg.known.any (fun s => eqIgnoreAsciiCase s resource)

/-- `config.rs::has_resources_available`: the requested resources (as a set)
minus the available resources (as a set), under exact string equality.
`HashSet::difference` iterates in an unspecified order; we fix the order of
first occurrence in the (deduplicated) request list.  No theorem below
depends on the order of a difference with two or more elements. -/
def has_resources_available (cfg : Config) (resources : List String) : List String :=
  resources.dedup.filter (fun r => !(cfg.available.contains r))

/-! ## Aging evaluator (`unit_age.rs`) -/

/-- `u32::saturating_add`. -/
def satAddU32 (a b : Nat) : Nat := min (a + b) 4294967295

/-- `i64::saturating_sub`. -/
def satSubI64 (a b : Int) : Int :=
  max (-9223372036854775808) (min 9223372036854775807 (a - b))

/-- Rust `u32::from_str` via `str::parse::<u32>()`: optional leading `+`,
then one or more ASCII digits, value within `u32` range. -/
def parseU32 (s : String) : Option Nat :=
  let l := match s.data with
    | '+' :: rest => rest
    | l => l
  if l = [] then none
  else if l.all Char.isDigit then
    let v := natOfDigits l
    if v ≤ 4294967295 then some v else none
  else none

/-- `UnitAge::from_env`: each setting independently falls back to its
default (365 / 30) when the variable is absent or does not parse as `u32`.
The raw environment strings are the explicit inputs. -/
def UnitAge.from_env (maxVar skipVar : Option String) : UnitAge :=
  { max := (maxVar.bind parseU32).getD 365
    skip := (skipVar.bind parseU32).getD 30 }

/-- `UnitAge::unit_aged_out`.  `now` (read from `Utc::now` in the source) is
an explicit parameter; `age` is the exact whole-day difference
`now.signed_duration_since(since)`. -/
def UnitAge.unit_aged_out (ua : UnitAge) (now since : Date) : UnitAgeResult :=
  if ua.max = 0 then .Young
  else
    let age : Int := now.toDays - since.toDays
    let silent_age : Int := (satAddU32 ua.max ua.skip : Nat)
    if age < (ua.max : Int) then .Young
    else
      let skip_left := satSubI64 silent_age age
      if skip_left > 0 then .Aged ("Silenced in " ++ toString skip_left ++ " days")
      else .Old

/-! ## The `src/crate` attribute parser (`src/crate/src/attribute_kind.rs`)

This parser receives the attribute token stream rendered to a string, so its
option prefixes and date format carry the token spacing
(`"updated = "`, `"%Y - %m - %d"`, `"resources = "`). -/

/-- `AttributeKind::parse_updated` (crate version).  `now` stands for
`Local::now().date_naive()`. -/
def parse_updated (now : Date) (options : List Char) : Except ParseError Date :=
  match stripPfx ("updated = ".data) options with
  | some date_str =>
    match parseDateSpaced date_str with
    | none => .error .invalidDateFormat
    | some date =>
      if date.toDays < minDate.toDays then .error .dateTooEarly
      else if date.toDays > now.toDays + 2 then .error .dateTooLate
      else .ok date
  | none => .error .invalidOptionsUnit

/-- `AttributeKind::parse_resources` (crate version). -/
def parse_resources (cfg : Config) (kind : String) (options : List Char) :
    Except ParseError (List String) :=
  if !(is_test_kind_defined cfg kind) then .error .undefinedKind
  else
    match stripPfx ("resources = ".data) options with
    | some resources_str =>
      let resources : List String :=
        (splitOnChar ',' resources_str).map (fun s => (trimWS s).asString)
      if resources.isEmpty then .error .emptyResourceList
      else
        let unknown := resources.filter (fun r => !(is_test_resource_defined cfg r))
        if !unknown.isEmpty then .error (.unknownResources unknown)
        else if resources.dedup.length ≠ resources.length then .error .duplicateResource
        else .ok resources
    | none => .error .invalidResourceList

/-- `AttributeKind::from_str` (crate version): split on the *first* comma
(`splitn(2, ',')`), trim both pieces, then dispatch on the shape. -/
def AttributeKind.from_str (cfg : Config) (now : Date) (attributes : String) :
    Except ParseError AttributeKind :=
  let parts := (splitnTwo ',' attributes.data).map trimWS
  match parts with
  | [kind, options] =>
    if kind = "unit".data then
      match parse_updated now options with
      | .ok updated => .ok (.Unit updated)
      | .error e => .error e
    else
      match parse_resources cfg kind.asString options with
      | .ok resources => .ok (.Other kind.asString resources)
      | .error e => .error e
  | [kind] =>
    if kind = "integration".data then .ok .Integration
    else .error .invalidFormat
  | _ => .error .invalidFormat

/-! ## The `src/src` attribute parser (`src/src/attribute_kind.rs`)

The older parser: unspaced option prefixes and date format, a *fixed* upper
date bound `min_date + 2 days` (2023-10-12), a split on *every* comma
(`split(',')`), and no unknown-resource check. -/

/-- `AttributeKind::parse_updated` (src version): prefix `updated=`, format
`%Y-%m-%d`, upper bound `min_date + Duration::days(2)`. -/
def parse_updatedSrc (options : List Char) : Except ParseError Date :=
  match stripPfx ("updated=".data) options with
  | some date_str =>
    match parseDatePlain date_str with
    | none => .error .invalidDateFormat
    | some date =>
      if date.toDays < minDate.toDays then .error .dateTooEarly
      else if date.toDays > minDate.toDays + 2 then .error .dateTooLate
      else .ok date
  | none => .error .invalidOptionsUnit

/-- `AttributeKind::parse_resources` (src version): prefix `resources=`, no
unknown-resource check. -/
def parse_resourcesSrc (cfg : Config) (kind : String) (options : List Char) :
    Except ParseError (List String) :=
  if !(is_test_kind_defined cfg kind) then .error .undefinedKind
  else
    match stripPfx ("resources=".data) options with
    | some resources_str =>
      let resources : List String :=
        (splitOnChar ',' resources_str).map (fun s => (trimWS s).asString)
      if resources.isEmpty then .error .emptyResourceList
      else if resources.dedup.length ≠ resources.length then .error .duplicateResource
      else .ok resources
    | none => .error .invalidResourceList

/-- `AttributeKind::from_lit_str` (src version): split on *every* comma, so
only one- and two-part attribute texts can match; the `Other` branch checks
`is_test_kind_defined` before delegating (the delegate re-checks it). -/
def AttributeKind.from_lit_str (cfg : Config) (attributes : String) :
    Except ParseError AttributeKind :=
  let parts := (splitOnChar ',' attributes.data).map trimWS
  match parts with
  | [kind, options] =>
    if kind = "unit".data then
      match parse_updatedSrc options with
      | .ok updated => .ok (.Unit updated)
      | .error e => .error e
    else if is_test_kind_defined cfg kind.asString then
      match parse_resourcesSrc cfg kind.asString options with
      | .ok resources => .ok (.Other kind.asString resources)
      | .error e => .error e
    else .error .undefinedKind
  | [kind] =>
    if kind = "integration".data then .ok .Integration
    else .error .invalidFormat
  | _ => .error .invalidFormat

/-! ## Policy engine (`AttributeKind::what_to_do`, crate version) -/

/-- Rust `Debug` escaping of one character inside a `str` (`escape_debug`):
quote, backslash, and the common control characters.  (Other control and
non-printable characters do not occur in the attribute texts considered
here and are passed through.) -/
def escapeDebugChar (c : Char) : List Char :=
  if c = '"' then ['\\', '"']
  else if c = '\\' then ['\\', '\\']
  else if c = '\n' then ['\\', 'n']
  else if c = '\r' then ['\\', 'r']
  else if c = '\t' then ['\\', 't']
  else if c = '\x00' then ['\\', '0']
  else [c]

/-- Rust `format` of a `String` under `{:?}`. -/
def rustDebugStr (s : String) : String :=
  "\"" ++ ((s.data.map escapeDebugChar).flatten).asString ++ "\""

/-- Rust `format` of a `Vec<String>` under `{:?}`. -/
def rustDebugList (l : List String) : String :=
  "[" ++ String.intercalate ", " (l.map rustDebugStr) ++ "]"

/-- `AttributeKind::what_to_do` (crate version).  `cfg` is the resolved
configuration the source reads through `config.rs`; `now` is the clock read
inside `UnitAge::unit_aged_out`.  `is_excluded(self)` resolves to
`is_test_kind_excluded` at the literal kind name. -/
def AttributeKind.what_to_do (cfg : Config) (now : Date) :
    AttributeKind → TestSettings
  | .Unit updated =>
    match cfg.unitAge.unit_aged_out now updated with
    | .Young =>
      if is_test_kind_excluded cfg ("unit") then
        .Skip ("Unit tests are excluded")
      else .Run
    | .Aged reason => .Skip reason
    | .Old => .Ignore
  | .Integration =>
    if is_test_kind_excluded cfg ("integration") then
      .Skip ("Integration tests are excluded")
    else .Run
  | .Other kind resources =>
    if is_test_kind_excluded cfg kind then
      .Skip ("Test of kind: " ++ kind ++ " are excluded")
    else
      let missing := has_resources_available cfg resources
      if missing.isEmpty then .Run
      else .Skip ("Test of kind: " ++ kind ++ " requires " ++ rustDebugList missing)

/-! ## The aging evaluation as the specification states it (claim C1)

Claim C1 words the algorithm with `age = now - updated` in whole days,
`silentAge = maxDays + skipDays` by saturating (u32) addition and
`skipLeft = max(0, silentAge - age)` by saturating subtraction. -/

/-- The aging evaluation exactly as claim C1 describes it. -/
def agingClaimSpec (maxDays skipDays : Nat) (now updated : Date) : UnitAgeResult :=
  if maxDays = 0 then .Young
  else
    let age : Int := now.toDays - updated.toDays
    if age < (maxDays : Int) then .Young
    else
      let silentAge : Int := (satAddU32 maxDays skipDays : Nat)
      let skipLeft : Int := max 0 (silentAge - age)
      if skipLeft > 0 then .Aged ("Silenced in " ++ toString skipLeft ++ " days")
      else .Old

/-! ## Helper lemmas -/

/-- Stripping a prefix from a list that carries it yields the remainder. -/
theorem stripPfx_append (p r : List Char) : stripPfx p (p ++ r) = some r := by
  induction p with
  | nil => rfl
  | cons c cs ih => simp [stripPfx, ih]

/-- `dropWhile` never lengthens a list. -/
theorem length_dropWhile_le' (p : Char → Bool) (l : List Char) :
    (l.dropWhile p).length ≤ l.length := by
  induction l with
  | nil => simp
  | cons c cs ih =>
    rw [List.dropWhile_cons]
    split
    · exact Nat.le_succ_of_le ih
    · simp

/-- `dropWhile` leaves an appended tail alone when it already leaves the
non-empty head part alone. -/
theorem dropWhile_append_left (p : Char → Bool) (x y : List Char)
    (hx : x.dropWhile p = x) (hne : x ≠ []) :
    (x ++ y).dropWhile p = x ++ y := by
  cases x with
  | nil => exact absurd rfl hne
  | cons c cs =>
    have hpc : p c = false := by
      by_contra hp
      have hp' : p c = true := by
        cases hpc2 : p c
        · exact absurd hpc2 hp
        · rfl
      rw [List.dropWhile_cons, if_pos hp'] at hx
      have h1 := congrArg List.length hx
      have h2 := length_dropWhile_le' p cs
      simp at h1
      omega
    rw [List.cons_append, List.dropWhile_cons, if_neg (by simp [hpc])]

/-- Right-trimming does not reach across an appended right part that is
non-empty and already right-trimmed. -/
theorem trimRight_append (a b : List Char) (hb : trimRight b = b) (hne : b ≠ []) :
    trimRight (a ++ b) = a ++ b := by
  unfold trimRight at *
  have hb' : b.reverse.dropWhile isWS = b.reverse := by
    have := congrArg List.reverse hb
    simpa using this
  rw [List.reverse_append]
  rw [dropWhile_append_left isWS b.reverse a.reverse hb' (by simpa using hne)]
  simp

/-- Rust `str::split` always yields at least one piece — the pivotal fact
behind the dead `is_empty` checks in both `parse_resources` versions. -/
theorem splitOnChar_ne_nil (c : Char) (l : List Char) : splitOnChar c l ≠ [] := by
  cases l with
  | nil => simp [splitOnChar]
  | cons x xs =>
    unfold splitOnChar
    split
    · simp
    · split <;> simp

/-- Every month has at most 31 days. -/
theorem daysInMonth_le (y : Int) (m : Nat) : daysInMonth y m ≤ 31 := by
  unfold daysInMonth
  split
  · split <;> omega
  · split <;> omega

/-- The day number of any chrono-representable date is tiny compared with
the `i64` saturation bounds. -/
theorem Date.toDays_bounds (dt : Date) (h : dt.Valid) :
    -1000000000 ≤ dt.toDays ∧ dt.toDays ≤ 1000000000 := by
  unfold Date.Valid Date.ValidB at h
  simp only [Bool.and_eq_true, decide_eq_true_eq] at h
  obtain ⟨⟨⟨hy1, hy2⟩, hm1, hm2⟩, hd1, hd2⟩ := h
  have hd31 : dt.d ≤ 31 := le_trans hd2 (daysInMonth_le dt.y dt.m)
  unfold Date.toDays
  have hyyb : -262145 ≤ (if dt.m ≤ 2 then dt.y - 1 else dt.y) ∧
      (if dt.m ≤ 2 then dt.y - 1 else dt.y) ≤ 262143 := by split <;> omega
  set yy : Int := (if dt.m ≤ 2 then dt.y - 1 else dt.y) with hyy
  have hera1 : Int.ediv yy 400 ≤ 655 := by
    calc Int.ediv yy 400 ≤ Int.ediv 262143 400 := Int.ediv_le_ediv (by norm_num) hyyb.2
    _ = 655 := by decide
  have hera2 : -656 ≤ Int.ediv yy 400 := by
    calc (-656 : Int) = Int.ediv (-262145) 400 := by decide
    _ ≤ Int.ediv yy 400 := Int.ediv_le_ediv (by norm_num) hyyb.1
  have hyoe1 : 0 ≤ Int.emod yy 400 := Int.emod_nonneg yy (by norm_num)
  have hyoe2 : Int.emod yy 400 < 400 := Int.emod_lt_of_pos yy (by norm_num)
  have hq4a : 0 ≤ Int.ediv (Int.emod yy 400) 4 := Int.ediv_nonneg hyoe1 (by norm_num)
  have hq4b : Int.ediv (Int.emod yy 400) 4 ≤ 99 := by
    calc Int.ediv (Int.emod yy 400) 4 ≤ Int.ediv 399 4 :=
      Int.ediv_le_ediv (by norm_num) (by omega)
    _ = 99 := by decide
  have hq100a : 0 ≤ Int.ediv (Int.emod yy 400) 100 := Int.ediv_nonneg hyoe1 (by norm_num)
  have hq100b : Int.ediv (Int.emod yy 400) 100 ≤ 3 := by
    calc Int.ediv (Int.emod yy 400) 100 ≤ Int.ediv 399 100 :=
      Int.ediv_le_ediv (by norm_num) (by omega)
    _ = 3 := by decide
  have hmp : (dt.m + 9) % 12 ≤ 11 := Nat.le_of_lt_succ (Nat.mod_lt _ (by norm_num))
  have hdoy1 : ((153 * ((dt.m + 9) % 12) + 2) / 5 : Nat) ≤ 337 := by
    calc ((153 * ((dt.m + 9) % 12) + 2) / 5 : Nat) ≤ (1685 / 5 : Nat) :=
      Nat.div_le_div_right (by omega)
    _ = 337 := by decide
  dsimp only
  omega

/-- A list with a duplicate has strictly fewer distinct elements than
elements (the `HashSet` length comparison in `parse_resources`). -/
theorem dedup_length_ne_of_not_nodup {l : List String} (h : ¬ l.Nodup) :
    l.dedup.length ≠ l.length := by
  intro hlen
  exact h (List.dedup_eq_self.mp (List.Sublist.eq_of_length (List.dedup_sublist l) hlen))

/-- The aging evaluator agrees with the claim C1 formulation on all
chrono-representable dates: the only textual difference — the code computes
`skip_left` with `i64::saturating_sub` and no `max(0, _)` clamp, the claim
with `max(0, silentAge - age)` — is invisible, because in the non-young
branch `age ≥ maxDays ≥ 1` keeps `silentAge - age` far inside the `i64`
range, and the clamp only matters in branches that both render `Old`. -/
theorem unit_aged_out_eq_spec (maxD skipD : Nat) (now updated : Date)
    (hn : now.Valid) (hu : updated.Valid) :
    UnitAge.unit_aged_out ⟨maxD, skipD⟩ now updated = agingClaimSpec maxD skipD now updated := by
  have hbn := now.toDays_bounds hn
  have hbu := updated.toDays_bounds hu
  unfold UnitAge.unit_aged_out agingClaimSpec
  dsimp only
  by_cases h0 : maxD = 0
  · rw [if_pos h0, if_pos h0]
  · rw [if_neg h0, if_neg h0]
    by_cases hy : (now.toDays - updated.toDays) < (maxD : Int)
    · rw [if_pos hy, if_pos hy]
    · rw [if_neg hy, if_neg hy]
      have hsat : satSubI64 ((satAddU32 maxD skipD : Nat) : Int) (now.toDays - updated.toDays)
          = ((satAddU32 maxD skipD : Nat) : Int) - (now.toDays - updated.toDays) := by
        unfold satSubI64 satAddU32
        omega
      rw [hsat]
      by_cases hpos : ((satAddU32 maxD skipD : Nat) : Int) - (now.toDays - updated.toDays) > 0
      · rw [if_pos hpos,
          if_pos (by omega :
            max 0 (((satAddU32 maxD skipD : Nat) : Int) - (now.toDays - updated.toDays)) > 0)]
        rw [(by omega :
          max 0 (((satAddU32 maxD skipD : Nat) : Int) - (now.toDays - updated.toDays))
            = ((satAddU32 maxD skipD : Nat) : Int) - (now.toDays - updated.toDays))]
      · rw [if_neg hpos,
          if_neg (by omega :
            ¬ (max 0 (((satAddU32 maxD skipD : Nat) : Int) - (now.toDays - updated.toDays)) > 0))]

/-! ## Claim C1 -/

/-- Claim C1 (confirmed).  For every updated date, current date, maxDays and
skipDays, the aging evaluation returns: Young when maxDays = 0; otherwise,
with age = now - updated in whole days (possibly negative), Young when
age < maxDays; otherwise, with silentAge = maxDays + skipDays by saturating
addition and skipLeft = max(0, silentAge - age) by saturating subtraction,
Aged("Silenced in ... days") when skipLeft > 0 and Old otherwise; and with
maxDays = 365, skipDays = 30, an age of 370 days yields
Aged("Silenced in 25 days") while an age of 400 days yields Old. -/
theorem claim_C1_aging_evaluation :
    (∀ (maxD skipD : Nat) (now updated : Date), now.Valid → updated.Valid →
      UnitAge.unit_aged_out ⟨maxD, skipD⟩ now updated = agingClaimSpec maxD skipD now updated)
    ∧ UnitAge.unit_aged_out ⟨365, 30⟩ ⟨2024, 1, 6⟩ ⟨2023, 1, 1⟩ = .Aged ("Silenced in 25 days")
    ∧ UnitAge.unit_aged_out ⟨365, 30⟩ ⟨2024, 2, 5⟩ ⟨2023, 1, 1⟩ = .Old :=
  ⟨unit_aged_out_eq_spec, by decide, by decide⟩

/-- Witness for claim C1: the validity hypotheses hold at concrete dates
370 days apart, where the evaluator and the claimed algorithm agree. -/
theorem claim_C1_witness :
    (Date.Valid ⟨2024, 1, 6⟩ ∧ Date.Valid ⟨2023, 1, 1⟩)
    ∧ UnitAge.unit_aged_out ⟨365, 30⟩ ⟨2024, 1, 6⟩ ⟨2023, 1, 1⟩
        = agingClaimSpec 365 30 ⟨2024, 1, 6⟩ ⟨2023, 1, 1⟩ :=
  ⟨⟨by decide, by decide⟩,
    claim_C1_aging_evaluation.1 365 30 ⟨2024, 1, 6⟩ ⟨2023, 1, 1⟩ (by decide) (by decide)⟩

/-! ## Claim C2 -/

/-- Claim C2 is refuted at a concrete input: the attribute text
"unit, updated=2023-10-13" is strictly of the claimed `updated=YYYY-MM-DD`
shape and its date lies inside the claimed window
(2023-10-10 ≤ 2023-10-13 ≤ today + 2 days for today = 2024-06-01), so the
claim demands success; instead the crate parser rejects it (its option
prefix is the token-spaced `updated = `), and the src parser rejects it as
too late (its upper bound is the fixed 2023-10-12, not today + 2 days). -/
theorem claim_C2_counterexample :
    AttributeKind.from_str ⟨[], [], [], [], ⟨365, 30⟩⟩ ⟨2024, 6, 1⟩ ("unit, updated=2023-10-13")
        = .error .invalidOptionsUnit
    ∧ AttributeKind.from_lit_str ⟨[], [], [], [], ⟨365, 30⟩⟩ ("unit, updated=2023-10-13")
        = .error .dateTooLate :=
  ⟨by decide, by decide⟩

/-- Claim C2 (amended).  For the crate parser, a unit attribute text carries
its option in token-spaced form `unit, updated = <DATE>`: with any
non-empty, right-trimmed date part, the date is parsed with chrono format
`%Y - %m - %d` (failure: InvalidDateFormat); a parsed date earlier than
2023-10-10 fails with DateTooEarly, one later than today + 2 days with
DateTooLate, and otherwise parsing succeeds with `Unit{updated}`.  (The src
parser instead expects `updated=<DATE>`, format `%Y-%m-%d`, and the fixed
upper bound 2023-10-12.) -/
theorem claim_C2_amended (cfg : Config) (now : Date) (ds : List Char)
    (h1 : ds ≠ []) (h2 : trimRight ds = ds) :
    AttributeKind.from_str cfg now ⟨"unit, updated = ".data ++ ds⟩ =
      match parseDateSpaced ds with
      | none => .error .invalidDateFormat
      | some date =>
        if date.toDays < minDate.toDays then .error .dateTooEarly
        else if date.toDays > now.toDays + 2 then .error .dateTooLate
        else .ok (.Unit date) := by
  unfold AttributeKind.from_str
  have hsplit : splitnTwo ',' (String.data ⟨"unit, updated = ".data ++ ds⟩) =
      ["unit".data, " updated = ".data ++ ds] := rfl
  rw [hsplit]
  have htl : trimLeft (" updated = ".data ++ ds) = "updated = ".data ++ ds := rfl
  have htrim : trimWS (" updated = ".data ++ ds) = "updated = ".data ++ ds := by
    unfold trimWS
    rw [htl]
    exact trimRight_append ("updated = ".data) ds h2 h1
  have htu : trimWS ("unit".data) = "unit".data := rfl
  simp only [List.map_cons, List.map_nil, htrim, htu]
  simp only [if_true]
  unfold parse_updated
  rw [stripPfx_append ("updated = ".data) ds]
  cases hp : parseDateSpaced ds with
  | none => simp [hp]
  | some date =>
    by_cases he : date.toDays < minDate.toDays
    · simp [hp, he]
    · by_cases hl : now.toDays + 2 < date.toDays
      · simp [hp, he, hl]
      · simp [hp, he, hl]

/-- Witness for the amended claim C2: the date part `2023 - 10 - 11`
satisfies the hypotheses and, with today = 2023-10-12, parses to a
successful `Unit` classification. -/
theorem claim_C2_witness :
    ("2023 - 10 - 11".data ≠ [] ∧ trimRight ("2023 - 10 - 11".data) = "2023 - 10 - 11".data)
    ∧ AttributeKind.from_str ⟨[], [], [], [], ⟨365, 30⟩⟩ ⟨2023, 10, 12⟩
        ⟨"unit, updated = ".data ++ "2023 - 10 - 11".data⟩ =
      match parseDateSpaced ("2023 - 10 - 11".data) with
      | none => .error .invalidDateFormat
      | some date =>
        if date.toDays < minDate.toDays then .error .dateTooEarly
        else if date.toDays > Date.toDays ⟨2023, 10, 12⟩ + 2 then .error .dateTooLate
        else .ok (.Unit date) :=
  ⟨⟨by decide, by decide⟩,
    claim_C2_amended ⟨[], [], [], [], ⟨365, 30⟩⟩ ⟨2023, 10, 12⟩ ("2023 - 10 - 11".data)
      (by decide) (by decide)⟩

/-! ## Claim C3 -/

/-- Claim C3 (confirmed).  For every `Unit{updated}` classification and
current date: a Young aging evaluation gives Skip("Unit tests are
excluded") when "unit" is excluded and Run otherwise; Aged(reason) gives
Skip(reason); Old gives Ignore — the exclusion list is consulted only in
the Young case; and with maxAgeDays = 0 and "unit" not excluded every Unit
classification yields Run. -/
theorem claim_C3_unit_disposition :
    (∀ (cfg : Config) (now updated : Date),
      AttributeKind.what_to_do cfg now (.Unit updated) =
        match cfg.unitAge.unit_aged_out now updated with
        | .Young =>
          if is_test_kind_excluded cfg ("unit") then .Skip ("Unit tests are excluded") else .Run
        | .Aged reason => .Skip reason
        | .Old => .Ignore)
    ∧ (∀ (cfg : Config) (now updated : Date),
        cfg.unitAge.max = 0 → is_test_kind_excluded cfg ("unit") = false →
        AttributeKind.what_to_do cfg now (.Unit updated) = .Run) :=
  ⟨fun _ _ _ => rfl,
    fun cfg now updated h0 hexc => by
      simp [AttributeKind.what_to_do, UnitAge.unit_aged_out, h0, hexc]⟩

/-- Witness for claim C3: with maxAgeDays = 0 and an empty exclusion list,
the 2020-01-01 unit classification runs. -/
theorem claim_C3_witness :
    ((⟨[], [], [], [], ⟨0, 30⟩⟩ : Config).unitAge.max = 0
      ∧ is_test_kind_excluded ⟨[], [], [], [], ⟨0, 30⟩⟩ ("unit") = false)
    ∧ AttributeKind.what_to_do ⟨[], [], [], [], ⟨0, 30⟩⟩ ⟨2024, 6, 1⟩ (.Unit ⟨2020, 1, 1⟩) = .Run :=
  ⟨⟨by decide, by decide⟩,
    claim_C3_unit_disposition.2 ⟨[], [], [], [], ⟨0, 30⟩⟩ ⟨2024, 6, 1⟩ ⟨2020, 1, 1⟩
      (by decide) (by decide)⟩

/-! ## Claim C4 -/

/-- Claim C4 is refuted at its own concrete example: with
availableResources = ["db"] and the classification
`Other{kind: "api", resources: ["db", "cache"]}` not excluded, the
disposition is not the claimed `Skip("Test of kind: api requires
\x7bcache\x7d")` — the code renders the missing set with the Rust `Debug`
vector format, producing `[` `"cache"` `]` instead of braces. -/
theorem claim_C4_counterexample :
    AttributeKind.what_to_do ⟨[], [], [], ["db"], ⟨365, 30⟩⟩ ⟨2024, 6, 1⟩
        (.Other ("api") ["db", "cache"])
      ≠ .Skip ("Test of kind: api requires \x7bcache\x7d") := by decide

/-- Claim C4 (amended).  For every `Other{kind, resources}` classification:
when the kind is excluded (case-insensitively) the disposition is
Skip("Test of kind: ... are excluded"); otherwise, with missing = resources
minus availableResources as a set difference under exact string equality,
the disposition is Run when missing is empty and otherwise
Skip("Test of kind: ... requires ..."), where the missing set is rendered
in the Rust Debug list format (so the concrete example renders as
`Skip("Test of kind: api requires ["cache"]")`). -/
theorem claim_C4_other_disposition :
    (∀ (cfg : Config) (now : Date) (kind : String) (resources : List String),
      AttributeKind.what_to_do cfg now (.Other kind resources) =
        if is_test_kind_excluded cfg kind then
          .Skip ("Test of kind: " ++ kind ++ " are excluded")
        else if (has_resources_available cfg resources).isEmpty then .Run
        else .Skip ("Test of kind: " ++ kind ++ " requires "
          ++ rustDebugList (has_resources_available cfg resources)))
    ∧ AttributeKind.what_to_do ⟨[], [], [], ["db"], ⟨365, 30⟩⟩ ⟨2024, 6, 1⟩
        (.Other ("api") ["db", "cache"])
      = .Skip ("Test of kind: api requires [\"cache\"]") :=
  ⟨fun _ _ _ _ => rfl, by decide⟩

/-! ## Claim C5 -/

/-- Claim C5 identifies a code bug.  The claim (and the spec, and the dead
`is_empty` guard in both `parse_resources` versions) intend the empty
resource list "other, resources=" to fail with EmptyResourceList, but
splitting any string on a comma yields at least one (possibly empty) item:
the src parser accepts the text, producing the degenerate classification
`Other{kind: "other", resources: [""]}`; the crate parser rejects the
token-spaced form of the same attribute as InvalidOptions; and neither
version of `parse_resources` can ever return EmptyResourceList. -/
theorem claim_C5_empty_resources :
    AttributeKind.from_lit_str ⟨[], [], [], [], ⟨365, 30⟩⟩ ("other, resources=")
        = .ok (.Other ("other") [""])
    ∧ AttributeKind.from_str ⟨[], [], [], [], ⟨365, 30⟩⟩ ⟨2024, 6, 1⟩ ("other, resources = ")
        = .error .invalidResourceList
    ∧ (∀ (cfg : Config) (kind : String) (options : List Char),
        parse_resources cfg kind options ≠ .error .emptyResourceList)
    ∧ (∀ (cfg : Config) (kind : String) (options : List Char),
        parse_resourcesSrc cfg kind options ≠ .error .emptyResourceList) := by
  refine ⟨by decide, by decide, ?_, ?_⟩
  · intro cfg kind options
    unfold parse_resources
    split
    · intro h; cases h
    · split
      · rename_i rs heq
        have hne : ((splitOnChar ',' rs).map (fun s => (trimWS s).asString)).isEmpty = false := by
          cases hsp : (splitOnChar ',' rs).map (fun s => (trimWS s).asString) with
          | nil => exact absurd (List.map_eq_nil_iff.mp hsp) (splitOnChar_ne_nil ',' rs)
          | cons a t => rfl
        simp only [hne, Bool.false_eq_true, if_false]
        split
        · intro h; cases h
        · split
          · intro h; cases h
          · intro h; cases h
      · intro h; cases h
  · intro cfg kind options
    unfold parse_resourcesSrc
    split
    · intro h; cases h
    · split
      · rename_i rs heq
        have hne : ((splitOnChar ',' rs).map (fun s => (trimWS s).asString)).isEmpty = false := by
          cases hsp : (splitOnChar ',' rs).map (fun s => (trimWS s).asString) with
          | nil => exact absurd (List.map_eq_nil_iff.mp hsp) (splitOnChar_ne_nil ',' rs)
          | cons a t => rfl
        simp only [hne, Bool.false_eq_true, if_false]
        split
        · intro h; cases h
        · intro h; cases h
      · intro h; cases h

/-! ## Claim C6 -/

/-- Claim C6 is refuted at its own example text: "other, resources=db,db"
does not fail with DuplicateResource — the crate parser never reaches the
duplicate check because the unspaced `resources=` option does not match its
token-spaced `resources = ` prefix, so it fails with the invalid-options
error instead. -/
theorem claim_C6_counterexample :
    AttributeKind.from_str ⟨[], [], [], [], ⟨365, 30⟩⟩ ⟨2024, 6, 1⟩ ("other, resources=db,db")
        = .error .invalidResourceList
    ∧ AttributeKind.from_str ⟨[], [], [], [], ⟨365, 30⟩⟩ ⟨2024, 6, 1⟩ ("other, resources=db,db")
        ≠ .error .duplicateResource :=
  ⟨by decide, by decide⟩

/-- Claim C6 (amended).  For every token-spaced resource list
`resources = <list>` whose trimmed items contain two entries equal under
exact string comparison (with the kind defined and every resource known),
the crate `parse_resources` fails with DuplicateResource — the example must
be written in token-spaced form, "other, resources = db , db" — and
duplicate detection is case-sensitive even though the exclusion and
registry checks are case-insensitive, so `db` and `DB` are not duplicates
and that list parses successfully. -/
theorem claim_C6_duplicate_detection :
    (∀ (cfg : Config) (kind : String) (rest : List Char),
      is_test_kind_defined cfg kind = true →
      (∀ r ∈ (splitOnChar ',' rest).map (fun s => (trimWS s).asString),
        is_test_resource_defined cfg r = true) →
      ¬ ((splitOnChar ',' rest).map (fun s => (trimWS s).asString)).Nodup →
      parse_resources cfg kind ("resources = ".data ++ rest) = .error .duplicateResource)
    ∧ AttributeKind.from_str ⟨[], [], [], [], ⟨365, 30⟩⟩ ⟨2024, 6, 1⟩ ("other, resources = db , db")
        = .error .duplicateResource
    ∧ AttributeKind.from_str ⟨[], [], [], [], ⟨365, 30⟩⟩ ⟨2024, 6, 1⟩ ("other, resources = db , DB")
        = .ok (.Other ("other") ["db", "DB"]) := by
  refine ⟨?_, by decide, by decide⟩
  intro cfg kind rest hdef hknown hdup
  unfold parse_resources
  rw [hdef]
  simp only [Bool.not_true, Bool.false_eq_true, if_false]
  rw [stripPfx_append ("resources = ".data) rest]
  have hne : (splitOnChar ',' rest).map (fun s => (trimWS s).asString) ≠ [] := by
    intro hnil
    exact splitOnChar_ne_nil ',' rest (List.map_eq_nil_iff.mp hnil)
  have hempty : ((splitOnChar ',' rest).map (fun s => (trimWS s).asString)).isEmpty = false := by
    cases hsp : (splitOnChar ',' rest).map (fun s => (trimWS s).asString) with
    | nil => exact absurd hsp hne
    | cons a t => rfl
  simp only [hempty, Bool.false_eq_true, if_false]
  have hunknown : ((splitOnChar ',' rest).map (fun s => (trimWS s).asString)).filter
      (fun r => !(is_test_resource_defined cfg r)) = [] := by
    apply List.filter_eq_nil_iff.mpr
    intro a ha
    rw [hknown a ha]
    simp
  rw [hunknown]
  simp only [List.isEmpty_nil, Bool.not_true, Bool.false_eq_true, if_false]
  rw [if_pos (dedup_length_ne_of_not_nodup hdup)]

/-- Witness for the amended claim C6: the list `db , db` has a duplicate,
its items are known under the empty registry, the kind `other` is defined,
and the crate `parse_resources` reports DuplicateResource. -/
theorem claim_C6_witness :
    (is_test_kind_defined ⟨[], [], [], [], ⟨365, 30⟩⟩ ("other") = true
      ∧ (∀ r ∈ (splitOnChar ',' ("db , db".data)).map (fun s => (trimWS s).asString),
          is_test_resource_defined ⟨[], [], [], [], ⟨365, 30⟩⟩ r = true)
      ∧ ¬ ((splitOnChar ',' ("db , db".data)).map (fun s => (trimWS s).asString)).Nodup)
    ∧ parse_resources ⟨[], [], [], [], ⟨365, 30⟩⟩ ("other") ("resources = ".data ++ "db , db".data)
        = .error .duplicateResource :=
  ⟨⟨by decide, by decide, by decide⟩,
    claim_C6_duplicate_detection.1 ⟨[], [], [], [], ⟨365, 30⟩⟩ ("other") ("db , db".data)
      (by decide) (by decide) (by decide)⟩

/-! ## Claim C7 -/

/-- Claim C7 (confirmed).  For every `Integration` classification the
disposition is Skip("Integration tests are excluded") when "integration"
is in the exclusion list (case-insensitive membership) and Run otherwise;
with exclusion list ["integration"] it is exactly that Skip. -/
theorem claim_C7_integration_disposition :
    (∀ (cfg : Config) (now : Date),
      AttributeKind.what_to_do cfg now .Integration =
        if is_test_kind_excluded cfg ("integration") then
          .Skip ("Integration tests are excluded")
        else .Run)
    ∧ AttributeKind.what_to_do ⟨["integration"], [], [], [], ⟨365, 30⟩⟩ ⟨2024, 6, 1⟩ .Integration
        = .Skip ("Integration tests are excluded") :=
  ⟨fun _ _ => rfl, by decide⟩

/-! ## Claim C8 -/

/-- Claim C8 (confirmed).  Configuration resolution never fails: for every
value of the max-age and skip-window settings — absent, malformed or
numeric — `UnitAge::from_env` produces a configuration, where a setting
that is absent or fails to parse as `u32` falls back to 365 (max-age) or
30 (skip window), and a parse success is taken as-is. -/
theorem claim_C8_from_env_total :
    ∀ (maxVar skipVar : Option String),
      (maxVar.bind parseU32 = none → (UnitAge.from_env maxVar skipVar).max = 365)
      ∧ (skipVar.bind parseU32 = none → (UnitAge.from_env maxVar skipVar).skip = 30)
      ∧ (∀ v, maxVar.bind parseU32 = some v → (UnitAge.from_env maxVar skipVar).max = v)
      ∧ (∀ v, skipVar.bind parseU32 = some v → (UnitAge.from_env maxVar skipVar).skip = v) := by
  intro maxVar skipVar
  refine ⟨?_, ?_, ?_, ?_⟩
  · intro h; simp [UnitAge.from_env, h]
  · intro h; simp [UnitAge.from_env, h]
  · intro v h; simp [UnitAge.from_env, h]
  · intro v h; simp [UnitAge.from_env, h]

/-- Witness for claim C8: a non-numeric max-age setting together with an
absent skip-window setting resolve to the defaults 365 and 30. -/
theorem claim_C8_witness :
    ((some ("not a number")).bind parseU32 = none
      ∧ (none : Option String).bind parseU32 = none)
    ∧ (UnitAge.from_env (some ("not a number")) none).max = 365
    ∧ (UnitAge.from_env (some ("not a number")) none).skip = 30 :=
  ⟨⟨by decide, by decide⟩,
    (claim_C8_from_env_total (some ("not a number")) none).1 (by decide),
    (claim_C8_from_env_total (some ("not a number")) none).2.1 (by decide)⟩

/-! ## Claim C9 -/

/-- Claim C9 is refuted at a concrete input: on the attribute text
"unit, updated = 2023 - 10 - 10" (current date 2023-10-11) the crate parser
succeeds with a `Unit` classification while the src parser fails, so the
two parsers are not extensionally equal. -/
theorem claim_C9_counterexample :
    AttributeKind.from_str ⟨[], [], [], [], ⟨365, 30⟩⟩ ⟨2023, 10, 11⟩
        ("unit, updated = 2023 - 10 - 10")
      = .ok (.Unit ⟨2023, 10, 10⟩)
    ∧ AttributeKind.from_lit_str ⟨[], [], [], [], ⟨365, 30⟩⟩ ("unit, updated = 2023 - 10 - 10")
      = .error .invalidOptionsUnit :=
  ⟨by decide, by decide⟩

/-- Claim C9 (amended).  The two parser implementations are not
extensionally equal.  They agree on the plain "integration" text, but
diverge elsewhere: (a) the crate parser accepts the token-spaced unit
option the src parser rejects; (b) the src parser enforces the fixed upper
bound 2023-10-12 on the unspaced form — failing with DateTooLate
independently of the current date — while the crate parser rejects the
unspaced form outright; (c) a two-resource list is accepted by the crate
parser (first-comma split) and rejected as InvalidFormat by the src parser
(every-comma split); (d) only the crate parser performs the
unknown-resource check, so with known resources ["db"] it rejects a
resource `foo` that the src parser accepts. -/
theorem claim_C9_amended :
    (AttributeKind.from_str ⟨[], [], [], [], ⟨365, 30⟩⟩ ⟨2024, 6, 1⟩ ("integration")
        = .ok .Integration
      ∧ AttributeKind.from_lit_str ⟨[], [], [], [], ⟨365, 30⟩⟩ ("integration")
        = .ok .Integration)
    ∧ (AttributeKind.from_str ⟨[], [], [], [], ⟨365, 30⟩⟩ ⟨2023, 10, 11⟩
          ("unit, updated = 2023 - 10 - 11")
        = .ok (.Unit ⟨2023, 10, 11⟩)
      ∧ AttributeKind.from_lit_str ⟨[], [], [], [], ⟨365, 30⟩⟩ ("unit, updated = 2023 - 10 - 11")
        = .error .invalidOptionsUnit)
    ∧ (AttributeKind.from_lit_str ⟨[], [], [], [], ⟨365, 30⟩⟩ ("unit, updated=2024-05-30")
        = .error .dateTooLate
      ∧ AttributeKind.from_str ⟨[], [], [], [], ⟨365, 30⟩⟩ ⟨2024, 6, 1⟩ ("unit, updated=2024-05-30")
        = .error .invalidOptionsUnit)
    ∧ (AttributeKind.from_str ⟨[], [], [], [], ⟨365, 30⟩⟩ ⟨2024, 6, 1⟩
          ("end2end, resources = foo , bar")
        = .ok (.Other ("end2end") ["foo", "bar"])
      ∧ AttributeKind.from_lit_str ⟨[], [], [], [], ⟨365, 30⟩⟩ ("end2end, resources = foo , bar")
        = .error .invalidFormat)
    ∧ (AttributeKind.from_str ⟨[], [], ["db"], [], ⟨365, 30⟩⟩ ⟨2024, 6, 1⟩ ("api, resources = foo")
        = .error (.unknownResources ["foo"])
      ∧ AttributeKind.from_lit_str ⟨[], [], ["db"], [], ⟨365, 30⟩⟩ ("api, resources=foo")
        = .ok (.Other ("api") ["foo"])) :=
  ⟨⟨by decide, by decide⟩, ⟨by decide, by decide⟩, ⟨by decide, by decide⟩,
    ⟨by decide, by decide⟩, ⟨by decide, by decide⟩⟩

/-! ## Claim C10 -/

/-- Claim C10 (confirmed).  Parsing is deterministic: for every attribute
text, parsing it twice under the same configuration snapshot and current
date yields the same outcome — both parsers are pure functions of
(text, configuration, current date), the ambient environment and clock
having been made explicit inputs. -/
theorem claim_C10_deterministic :
    ∀ (cfg : Config) (now : Date) (text : String),
      AttributeKind.from_str cfg now text = AttributeKind.from_str cfg now text
      ∧ AttributeKind.from_lit_str cfg text = AttributeKind.from_lit_str cfg text :=
  fun _ _ _ => ⟨rfl, rfl⟩
